import Mathlib

/-
Shallow embedding of the Health Track backend (backend/main.py).

The program is a FastAPI service with three routes.  The parts relevant to
the claims are:
  * `ask_gemini`   — wraps the external generative-model call in try/except;
  * `analyze_text` — the `/analyze` route (symptom triage);
  * `analyze_file` — the `/analyze-file` route (classify upload, extract
    text, call the model, best-effort `json.loads` of the reply).

External effects are modelled as explicit oracle parameters:
  * the generative-model call is a function `String → GeminiCall` from the
    full prompt to the outcome (an exception, or a reply whose `.text`
    attribute may be absent/empty);
  * OCR (`PIL.Image.open` + `pytesseract.image_to_string`) is a function
    from the uploaded bytes to an `OcrOutcome` (any exception in either
    step, or the recognised text);
  * the import-time capability probe `OCR_AVAILABLE` is a Bool parameter.

Handlers return their response value paired with a trace of external
calls actually performed (`Event.gemini` for a model invocation,
`Event.ocrCall` for an OCR attempt), so that "the external model is never
invoked" is the absence of `Event.gemini` in the trace.

Bytes are represented as `List Nat` (each element < 256 in practice);
Python `str` values as Lean `String`.
-/

namespace HealthTrack

/-- Whitespace as recognised by Python `str.strip` / `str.isspace`
(the Unicode whitespace code points). -/
def pyIsSpace (c : Char) : Bool :=
  let n := c.toNat
  (0x09 ≤ n && n ≤ 0x0D) || n = 0x20 || (0x1C ≤ n && n ≤ 0x1F) ||
    n = 0x85 || n = 0xA0 || n = 0x1680 || (0x2000 ≤ n && n ≤ 0x200A) ||
    n = 0x2028 || n = 0x2029 || n = 0x202F || n = 0x205F || n = 0x3000

/-- Python `str.strip()`: drop leading and trailing whitespace. -/
def pyStrip (s : String) : String :=
  String.mk (((s.toList.dropWhile pyIsSpace).reverse.dropWhile pyIsSpace).reverse)

/-- Python `str.lower()` (ASCII case folding, which is all the routes use
it for — extension matching). -/
def pyLower (s : String) : String :=
  String.mk (s.toList.map Char.toLower)

/-- Python `str.startswith(p)`. -/
def pyStartsWith (s p : String) : Bool :=
  s.toList.take p.toList.length == p.toList

/-- Python `str.endswith(p)`. -/
def pyEndsWith (s p : String) : Bool :=
  s.toList.drop (s.toList.length - p.toList.length) == p.toList

/-- A UTF-8 continuation byte (0x80–0xBF). -/
def isCont (b : Nat) : Bool := 0x80 ≤ b && b ≤ 0xBF

/-- Admissible first continuation byte after a three-byte lead `b`
(per the tightened ranges for 0xE0 and 0xED that exclude overlong
encodings and surrogates, as CPython's UTF-8 decoder enforces). -/
def cont3ok (b c1 : Nat) : Bool :=
  if b = 0xE0 then 0xA0 ≤ c1 && c1 ≤ 0xBF
  else if b = 0xED then 0x80 ≤ c1 && c1 ≤ 0x9F
  else isCont c1

/-- Admissible first continuation byte after a four-byte lead `b`
(tightened ranges for 0xF0 and 0xF4). -/
def cont4ok (b c1 : Nat) : Bool :=
  if b = 0xF0 then 0x90 ≤ c1 && c1 ≤ 0xBF
  else if b = 0xF4 then 0x80 ≤ c1 && c1 ≤ 0x8F
  else isCont c1

/-- U+FFFD, the replacement character substituted for undecodable bytes. -/
def replChar : Char := Char.ofNat 0xFFFD

/-- One pass of the UTF-8 decoder with replacement, written with explicit
fuel so that it is structurally recursive (each step consumes at least the
lead byte, so fuel equal to the list length always suffices).  Substitutes
U+FFFD for each maximal invalid subpart, as CPython's
`errors="replace"` handler does: an invalid lead is consumed alone; a
truncated or broken sequence consumes its valid prefix and the offending
byte is re-examined as a new lead. -/
def utf8go : Nat → List Nat → List Char
  | 0, _ => []
  | Nat.succ _, [] => []
  | Nat.succ n, b :: bs =>
    if b ≤ 0x7F then Char.ofNat b :: utf8go n bs
    else if b ≤ 0xC1 then replChar :: utf8go n bs
    else if b ≤ 0xDF then
      match bs with
      | [] => [replChar]
      | c1 :: bs1 =>
        if isCont c1 then
          Char.ofNat ((b - 0xC0) * 0x40 + (c1 - 0x80)) :: utf8go n bs1
        else replChar :: utf8go n (c1 :: bs1)
    else if b ≤ 0xEF then
      match bs with
      | [] => [replChar]
      | c1 :: bs1 =>
        if cont3ok b c1 then
          match bs1 with
          | [] => [replChar]
          | c2 :: bs2 =>
            if isCont c2 then
              Char.ofNat ((b - 0xE0) * 0x1000 + (c1 - 0x80) * 0x40 + (c2 - 0x80)) ::
                utf8go n bs2
            else replChar :: utf8go n (c2 :: bs2)
        else replChar :: utf8go n (c1 :: bs1)
    else if b ≤ 0xF4 then
      match bs with
      | [] => [replChar]
      | c1 :: bs1 =>
        if cont4ok b c1 then
          match bs1 with
          | [] => [replChar]
          | c2 :: bs2 =>
            if isCont c2 then
              match bs2 with
              | [] => [replChar]
              | c3 :: bs3 =>
                if isCont c3 then
                  Char.ofNat ((b - 0xF0) * 0x40000 + (c1 - 0x80) * 0x1000 +
                      (c2 - 0x80) * 0x40 + (c3 - 0x80)) :: utf8go n bs3
                else replChar :: utf8go n (c3 :: bs3)
            else replChar :: utf8go n (c2 :: bs2)
        else replChar :: utf8go n (c1 :: bs1)
    else replChar :: utf8go n bs

/-- Python `bytes.decode("utf-8", errors="replace")`, on the underlying
byte list: total, never raising, with undecodable bytes replaced. -/
def utf8DecodeList (bs : List Nat) : List Char :=
  utf8go bs.length bs

/-- `body.decode("utf-8", errors="replace")` as a `String`. -/
def utf8DecodeReplace (body : List Nat) : String :=
  String.mk (utf8DecodeList body)

/-- JSON values as produced by Python `json.loads`.  Numeric literals are
kept as their source text (`num "95"`), since the program never computes
with them — it only passes them through to the response. -/
inductive Json where
  | null
  | bool (b : Bool)
  | num (lit : String)
  | str (s : String)
  | arr (elems : List Json)
  | obj (members : List (String × Json))

/-- JSON insignificant whitespace (space, tab, newline, carriage return). -/
def jsonWs (c : Char) : Bool :=
  c = ' ' || c = '\t' || c = '\n' || c = '\r'

/-- Skip JSON whitespace. -/
def skipWs : List Char → List Char
  | [] => []
  | c :: cs => if jsonWs c then skipWs cs else c :: cs

/-- Value of a hexadecimal digit. -/
def hexVal (c : Char) : Option Nat :=
  if c.isDigit then some (c.toNat - 48)
  else if 'a' ≤ c && c ≤ 'f' then some (c.toNat - 87)
  else if 'A' ≤ c && c ≤ 'F' then some (c.toNat - 55)
  else none

/-- Read four hexadecimal digits. -/
def parseHex4 : List Char → Option (Nat × List Char)
  | a :: b :: c :: d :: rest =>
    match hexVal a, hexVal b, hexVal c, hexVal d with
    | some x, some y, some z, some w =>
      some (x * 0x1000 + y * 0x100 + z * 0x10 + w, rest)
    | _, _, _, _ => none
  | _ => none

/-- Single-character JSON string escapes. -/
def escChar (c : Char) : Option Char :=
  if c = '"' then some '"'
  else if c = '\\' then some '\\'
  else if c = '/' then some '/'
  else if c = 'b' then some (Char.ofNat 8)
  else if c = 'f' then some (Char.ofNat 12)
  else if c = 'n' then some '\n'
  else if c = 'r' then some '\r'
  else if c = 't' then some '\t'
  else none

/-- Body of a JSON string after the opening quote: returns the decoded
characters and the remainder after the closing quote.  Strict mode, as
`json.loads` defaults to: unescaped control characters are an error.
A `\uXXXX` surrogate pair is combined; a lone surrogate (which Python
would keep as a lone surrogate code unit, unrepresentable in a Lean
`Char`) is mapped to U+FFFD.  Fuel `length + 1` always suffices since
each step consumes at least one character. -/
def parseStrChars : Nat → List Char → Option (List Char × List Char)
  | 0, _ => none
  | Nat.succ n, cs =>
    match cs with
    | [] => none
    | '"' :: rest => some ([], rest)
    | '\\' :: rest =>
      match rest with
      | [] => none
      | 'u' :: rest1 =>
        match parseHex4 rest1 with
        | none => none
        | some (code, rest2) =>
          if 0xD800 ≤ code && code ≤ 0xDBFF then
            match rest2 with
            | '\\' :: 'u' :: rest3 =>
              match parseHex4 rest3 with
              | some (lo, rest4) =>
                if 0xDC00 ≤ lo && lo ≤ 0xDFFF then
                  match parseStrChars n rest4 with
                  | some (s, r) =>
                    some (Char.ofNat (0x10000 + (code - 0xD800) * 0x400 + (lo - 0xDC00)) :: s, r)
                  | none => none
                else
                  match parseStrChars n rest2 with
                  | some (s, r) => some (replChar :: s, r)
                  | none => none
              | none =>
                match parseStrChars n rest2 with
                | some (s, r) => some (replChar :: s, r)
                | none => none
            | _ =>
              match parseStrChars n rest2 with
              | some (s, r) => some (replChar :: s, r)
              | none => none
          else if 0xDC00 ≤ code && code ≤ 0xDFFF then
            match parseStrChars n rest2 with
            | some (s, r) => some (replChar :: s, r)
            | none => none
          else
            match parseStrChars n rest2 with
            | some (s, r) => some (Char.ofNat code :: s, r)
            | none => none
      | e :: rest1 =>
        match escChar e with
        | some c =>
          match parseStrChars n rest1 with
          | some (s, r) => some (c :: s, r)
          | none => none
        | none => none
    | c :: rest =>
      if c.toNat < 0x20 then none
      else
        match parseStrChars n rest with
        | some (s, r) => some (c :: s, r)
        | none => none

/-- Split a leading run of decimal digits. -/
def splitDigits (cs : List Char) : List Char × List Char :=
  (cs.takeWhile Char.isDigit, cs.dropWhile Char.isDigit)

/-- Integer part of the JSON number grammar: `0` or a nonzero digit
followed by digits (leading zeros are not matched). -/
def lexIntPart : List Char → Option (List Char × List Char)
  | '0' :: rest => some (['0'], rest)
  | c :: rest =>
    if c.isDigit then
      let (ds, r) := splitDigits rest
      some (c :: ds, r)
    else none
  | [] => none

/-- Optional fractional part `.digits`; returns `[]` and the original
input when it does not match. -/
def lexFrac (cs : List Char) : List Char × List Char :=
  match cs with
  | '.' :: rest =>
    let (ds, r) := splitDigits rest
    if ds.isEmpty then ([], cs) else ('.' :: ds, r)
  | _ => ([], cs)

/-- Optional exponent part; returns `[]` and the original input when it
does not match. -/
def lexExp (cs : List Char) : List Char × List Char :=
  match cs with
  | e :: rest =>
    if e = 'e' || e = 'E' then
      match rest with
      | s :: rest1 =>
        if s = '+' || s = '-' then
          let (ds, r) := splitDigits rest1
          if ds.isEmpty then ([], cs) else (e :: s :: ds, r)
        else
          let (ds, r) := splitDigits rest
          if ds.isEmpty then ([], cs) else (e :: ds, r)
      | [] => ([], cs)
    else ([], cs)
  | [] => ([], cs)

/-- The JSON number regular expression used by Python's scanner:
`-?(0|[1-9][0-9]*)(\.[0-9]+)?([eE][+-]?[0-9]+)?`. -/
def lexNumber (cs : List Char) : Option (List Char × List Char) :=
  match cs with
  | '-' :: rest =>
    match lexIntPart rest with
    | some (ip, r1) =>
      let (fp, r2) := lexFrac r1
      let (ep, r3) := lexExp r2
      some ('-' :: (ip ++ fp ++ ep), r3)
    | none => none
  | _ =>
    match lexIntPart cs with
    | some (ip, r1) =>
      let (fp, r2) := lexFrac r1
      let (ep, r3) := lexExp r2
      some (ip ++ fp ++ ep, r3)
    | none => none

/-- Consume an exact literal. -/
def stripLit (lit : String) (cs : List Char) : Option (List Char) :=
  if cs.take lit.toList.length == lit.toList then some (cs.drop lit.toList.length)
  else none

mutual

/-- One JSON value at the current position (no leading whitespace),
mirroring Python's scanner: string, object, array, `null`, `true`,
`false`, number, then the non-standard constants `NaN`, `Infinity`,
`-Infinity` that `json.loads` accepts by default. -/
def parseVal : Nat → List Char → Option (Json × List Char)
  | 0, _ => none
  | Nat.succ n, cs =>
    match cs with
    | '"' :: rest =>
      match parseStrChars (rest.length + 1) rest with
      | some (s, r) => some (Json.str (String.mk s), r)
      | none => none
    | '{' :: rest =>
      match skipWs rest with
      | '}' :: r2 => some (Json.obj [], r2)
      | cs2 =>
        match parseObjItems n cs2 with
        | some (kvs, r2) => some (Json.obj kvs, r2)
        | none => none
    | '[' :: rest =>
      match skipWs rest with
      | ']' :: r2 => some (Json.arr [], r2)
      | cs2 =>
        match parseArrItems n cs2 with
        | some (vs, r2) => some (Json.arr vs, r2)
        | none => none
    | _ =>
      match stripLit "null" cs with
      | some r => some (Json.null, r)
      | none =>
      match stripLit "true" cs with
      | some r => some (Json.bool true, r)
      | none =>
      match stripLit "false" cs with
      | some r => some (Json.bool false, r)
      | none =>
      match lexNumber cs with
      | some (lit, r) => some (Json.num (String.mk lit), r)
      | none =>
      match stripLit "NaN" cs with
      | some r => some (Json.num "NaN", r)
      | none =>
      match stripLit "Infinity" cs with
      | some r => some (Json.num "Infinity", r)
      | none =>
      match stripLit "-Infinity" cs with
      | some r => some (Json.num "-Infinity", r)
      | none => none

/-- One or more comma-separated array items starting at a value
position (whitespace already skipped). -/
def parseArrItems : Nat → List Char → Option (List Json × List Char)
  | 0, _ => none
  | Nat.succ n, cs =>
    match parseVal n cs with
    | none => none
    | some (v, r) =>
      match skipWs r with
      | ',' :: r2 =>
        match parseArrItems n (skipWs r2) with
        | some (vs, r3) => some (v :: vs, r3)
        | none => none
      | ']' :: r2 => some ([v], r2)
      | _ => none

/-- One or more comma-separated object members starting at the key's
opening quote. -/
def parseObjItems : Nat → List Char → Option (List (String × Json) × List Char)
  | 0, _ => none
  | Nat.succ n, cs =>
    match cs with
    | '"' :: rest =>
      match parseStrChars (rest.length + 1) rest with
      | none => none
      | some (k, r1) =>
        match skipWs r1 with
        | ':' :: r2 =>
          match parseVal n (skipWs r2) with
          | none => none
          | some (v, r3) =>
            match skipWs r3 with
            | ',' :: r4 =>
              match parseObjItems n (skipWs r4) with
              | some (kvs, r5) => some ((String.mk k, v) :: kvs, r5)
              | none => none
            | '}' :: r4 => some ([(String.mk k, v)], r4)
            | _ => none
        | _ => none
    | _ => none

end

/-- Python `json.loads`: skip leading whitespace, parse one value,
require only whitespace to remain; `none` models a raised
`JSONDecodeError` (or `TypeError`).  Fuel `2*length + 2` always
suffices: every two nested fuel levels consume at least one character. -/
def json_loads (s : String) : Option Json :=
  let cs := skipWs s.toList
  match parseVal (2 * cs.length + 2) cs with
  | some (v, rest) => if (skipWs rest).isEmpty then some v else none
  | none => none

/-- Python `dict.get(k, dflt)` on the member list of a parsed object.
`json.loads` builds a `dict` by inserting members in order, so a later
duplicate key overwrites an earlier one: the last occurrence wins. -/
def dictGet (kvs : List (String × Json)) (k : String) (dflt : Json) : Json :=
  (kvs.foldl (fun acc p => if p.1 = k then some p.2 else acc) none).getD dflt

/-- The member list of a parsed value when it is a JSON object; `none`
models the `AttributeError` that `.get` raises on every other result of
`json.loads` (list, string, number, boolean, `None`). -/
def jsonObj? : Option Json → Option (List (String × Json))
  | some (Json.obj kvs) => some kvs
  | _ => none

/-- Whether a JSON value is an object (a map). -/
def Json.isObjVal : Json → Bool
  | .obj _ => true
  | _ => false

/-- Whether a JSON value is a string. -/
def Json.isString : Json → Bool
  | .str _ => true
  | _ => false

/-- Whether a JSON value is an array all of whose elements are objects. -/
def Json.isArrayOfObjects : Json → Bool
  | .arr xs => xs.all Json.isObjVal
  | _ => false

/-- Outcome of one `model.generate_content(full_prompt)` call: the call
raises some exception (with the given text), or returns a response whose
`.text` attribute is `none` (absent) or some string. -/
inductive GeminiCall where
  | raises (msg : String)
  | replies (text : Option String)

/-- Externally observable side effects of a request: a model invocation
(with the full prompt actually sent) or an OCR attempt on the uploaded
bytes (`Image.open` + `pytesseract.image_to_string`). -/
inductive Event where
  | gemini (sent : String)
  | ocrCall (body : List Nat)
deriving DecidableEq

/-- A single-quote character, to spell the apostrophes occurring inside
the prompt templates. -/
def sq : String := String.singleton (Char.ofNat 39)

/-- The default system prompt of `ask_gemini`. -/
def defaultSystem : String :=
  "You are a helpful, cautious medical assistant. " ++
  "Provide non-diagnostic advice, clearly indicate if the user should seek medical care, " ++
  "and suggest follow-up steps and specialist types."

/-- `f"{system_prompt}\n\nUser input:\n{prompt}"`, where `system_prompt`
is the argument if truthy (non-`None`, non-empty) and the default system
prompt otherwise (`system or (...)`). -/
def full_prompt (system : Option String) (prompt : String) : String :=
  (match system with
   | none => defaultSystem
   | some s => if s = "" then defaultSystem else s) ++
  "\n\nUser input:\n" ++ prompt

/-- `ask_gemini(prompt, system)`: build the full prompt, call the model,
and inside `try/except` turn every exception into the marker string
`"[Gemini error] " + str(e)`; a falsy `response.text` (absent or empty)
becomes `"[No response]"`, otherwise the reply is stripped.  Returns the
result string paired with the full prompt that was sent (the call trace
of the helper, which always performs exactly one external call). -/
def ask_gemini (gem : String → GeminiCall) (prompt : String) (system : Option String) :
    String × String :=
  let fp := full_prompt system prompt
  (match gem fp with
   | GeminiCall.raises e => "[Gemini error] " ++ e
   | GeminiCall.replies none => "[No response]"
   | GeminiCall.replies (some t) => if t = "" then "[No response]" else pyStrip t,
   fp)

/-- The `/analyze` prompt template applied to the stripped symptom. -/
def analyze_text_prompt (symptom : String) : String :=
  "User symptom description:\n\n" ++ symptom ++ "\n\n" ++
  "Please provide:\n" ++
  "1) Short summary of likely causes (2–4 bullet points).\n" ++
  "2) Urgency level (e.g., " ++ sq ++ "seek immediate care" ++ sq ++ ", " ++
    sq ++ "see doctor within 48 hours" ++ sq ++ ", " ++ sq ++ "self-care ok" ++ sq ++ ").\n" ++
  "3) Practical next steps (3 bullets) and what specialist to consult if needed.\n" ++
  "4) List any red-flag symptoms that should prompt immediate emergency care.\n" ++
  "Be concise and avoid giving definitive medical diagnoses. Use plain language."

/-- The `/analyze` route handler: strip the symptom; if empty, return the
fixed message without any external call; otherwise send the prompt to the
model and return its answer.  The first component is the `result` field of
the JSON response; the second is the trace of external calls. -/
def analyze_text (gem : String → GeminiCall) (symptom : String) : String × List Event :=
  let s := pyStrip symptom
  if s = "" then ("Please provide a non-empty symptom description.", [])
  else
    let afp := ask_gemini gem (analyze_text_prompt s) none
    (afp.1, [Event.gemini afp.2])

/-- Outcome of the OCR step on the uploaded bytes: any exception from
`Image.open` or `pytesseract.image_to_string`, or the recognised text. -/
inductive OcrOutcome where
  | fails
  | extracts (text : String)

/-- Response body of `/analyze-file`: either `{"error": msg}` or
`{"metrics": ..., "diagnosis": ...}` (both fields hold whatever JSON
values the handler computed; no schema is enforced). -/
inductive FileResponse where
  | error (msg : String)
  | success (metrics : Json) (diagnosis : Json)

/-- The `/analyze-file` prompt template applied to the extracted text. -/
def analyze_file_prompt (extracted_text : String) : String :=
  "Here is the extracted text from a lab report or prescription:\n\n" ++
    extracted_text ++ "\n\n" ++
  "1) Extract key health metrics (name, value, unit, normal-range if present). " ++
  "Respond as a JSON object with a top-level key " ++ sq ++ "metrics" ++ sq ++
    " (list of objects with name, value, unit, range, normal boolean). \n" ++
  "2) Provide a concise diagnosis summary and recommendations under key " ++
    sq ++ "diagnosis" ++ sq ++ ". \n\n" ++
  "Return only JSON with keys: metrics and diagnosis."

/-- Tail of the `/analyze-file` handler, from the point where
`extracted_text` has been produced: reject when it strips to empty,
otherwise call the model and best-effort-parse the reply
(`try: parsed = json.loads(...); parsed.get(...) except: fallback`).
`jsonObj?` is `none` exactly when `json.loads` raises or its result has
no `.get` (is not a dict), i.e. on every path through the `except`. -/
def analyze_extracted (gem : String → GeminiCall) (extracted_text : String) :
    FileResponse × List Event :=
  if pyStrip extracted_text = "" then
    (FileResponse.error "No text could be extracted from the file.", [])
  else
    let afp := ask_gemini gem (analyze_file_prompt extracted_text) none
    match jsonObj? (json_loads afp.1) with
    | some kvs =>
      (FileResponse.success (dictGet kvs "metrics" (Json.arr []))
        (dictGet kvs "diagnosis" (Json.str "")), [Event.gemini afp.2])
    | none =>
      (FileResponse.success (Json.arr []) (Json.str afp.1), [Event.gemini afp.2])

/-- The first classification guard:
`content_type.startswith("text/") or filename.lower().endswith(".txt")`. -/
def is_text_upload (content_type filename : String) : Bool :=
  pyStartsWith content_type "text/" || pyEndsWith (pyLower filename) ".txt"

/-- The second classification guard: `content_type.startswith("image/")
or filename.lower().endswith((".png", ".jpg", ".jpeg"))`. -/
def is_image_upload (content_type filename : String) : Bool :=
  pyStartsWith content_type "image/" || pyEndsWith (pyLower filename) ".png" ||
    pyEndsWith (pyLower filename) ".jpg" || pyEndsWith (pyLower filename) ".jpeg"

/-- The third classification guard: `filename.lower().endswith(".pdf")`. -/
def is_pdf_upload (filename : String) : Bool :=
  pyEndsWith (pyLower filename) ".pdf"

/-- The image arm of the handler: if `OCR_AVAILABLE`, attempt OCR
(tracing the attempt) and on exception return the OCR-failure error;
if not, return the OCR-unavailable error without attempting anything. -/
def image_branch (ocr_available : Bool) (ocr : List Nat → OcrOutcome)
    (gem : String → GeminiCall) (body : List Nat) : FileResponse × List Event :=
  if ocr_available then
    match ocr body with
    | OcrOutcome.fails =>
      (FileResponse.error "OCR failed on the uploaded image.", [Event.ocrCall body])
    | OcrOutcome.extracts t =>
      ((analyze_extracted gem t).1, Event.ocrCall body :: (analyze_extracted gem t).2)
  else
    (FileResponse.error "OCR is not available. Install Pillow and pytesseract.", [])

/-- The `/analyze-file` route handler.  `content_type` is
`file.content_type or ""` (so a missing content type is the empty
string); `body` is the uploaded bytes; `ocr_available` is the import-time
`OCR_AVAILABLE` probe.  The if/elif chain tries text, then image, then
`.pdf`, then rejects. -/
def analyze_file (ocr_available : Bool) (ocr : List Nat → OcrOutcome)
    (gem : String → GeminiCall) (filename content_type : String) (body : List Nat) :
    FileResponse × List Event :=
  if is_text_upload content_type filename then
    analyze_extracted gem (utf8DecodeReplace body)
  else if is_image_upload content_type filename then
    image_branch ocr_available ocr gem body
  else if is_pdf_upload filename then
    (FileResponse.error "PDF parsing not enabled. Please convert PDF to text or image.", [])
  else
    (FileResponse.error "Unsupported file type. Send text or image files.", [])

/-- A model oracle that raises the same exception on every prompt. -/
def gemRaises (e : String) : String → GeminiCall := fun _ => GeminiCall.raises e

/-- A model oracle that returns the same reply text on every prompt. -/
def gemSays (t : String) : String → GeminiCall := fun _ => GeminiCall.replies (some t)

/-- An OCR oracle that always raises. -/
def ocrNever : List Nat → OcrOutcome := fun _ => OcrOutcome.fails

/-- The well-formed model reply used by the specification as its
file-route example (braces written with hexadecimal escapes). -/
def goodReply : String :=
  "\x7b\"metrics\": [\x7b\"name\":\"glucose\",\"value\":95,\"unit\":\"mg/dL\",\"range\":\"70-100\",\"normal\":true\x7d], \"diagnosis\":\"normal\"\x7d"

/-- Two suffixes of equal length cannot both be the ending of the same
string unless they are equal. -/
theorem ends_excl_same_len (s a b : String) (hlen : a.toList.length = b.toList.length)
    (hne : a.toList ≠ b.toList) (h : pyEndsWith s a = true) : pyEndsWith s b = false := by
  simp only [pyEndsWith, beq_iff_eq] at h
  simp only [pyEndsWith, beq_eq_false_iff_ne]
  rw [← hlen]
  intro hc
  exact hne (h.symm.trans hc)

/-- A string ending in `".pdf"` does not end in `".jpeg"` (the two
suffixes have different lengths, so this needs a separate argument). -/
theorem ends_pdf_not_jpeg (s : String) (h : pyEndsWith s ".pdf" = true) :
    pyEndsWith s ".jpeg" = false := by
  simp only [pyEndsWith, beq_iff_eq] at h
  simp only [pyEndsWith, beq_eq_false_iff_ne]
  intro hc
  have e4 : (".pdf" : String).toList.length = 4 := rfl
  have e5 : (".jpeg" : String).toList.length = 5 := rfl
  rw [e4] at h
  rw [e5] at hc
  have hlen := congrArg List.length hc
  rw [List.length_drop] at hlen
  have h5 : 5 ≤ s.toList.length := by omega
  have hdd : s.toList.drop (s.toList.length - 4) =
      List.drop 1 (s.toList.drop (s.toList.length - 5)) := by
    rw [List.drop_drop]
    congr 1
    omega
  rw [hc] at hdd
  rw [h] at hdd
  simp at hdd

end HealthTrack

namespace HealthTrack

/-- Claim C1: `ask_gemini` is total at its interface — for every prompt,
system string and behaviour of the external call, it returns a string (its
Lean type), and when the external call raises an exception the returned
string is the error marker `"[Gemini error] "` followed by the exception
text; no exception propagates to the caller. -/
theorem ask_gemini_never_raises (gem : String → GeminiCall) (prompt : String)
    (system : Option String) (e : String)
    (h : gem (full_prompt system prompt) = GeminiCall.raises e) :
    (ask_gemini gem prompt system).1 = "[Gemini error] " ++ e := by
  simp [ask_gemini, h]

/-- Claim C1, witness: a call whose external step raises
`"quota exceeded"` returns the marker-prefixed string. -/
theorem ask_gemini_never_raises_witness :
    (ask_gemini (gemRaises "quota exceeded") "headache" none).1 =
      "[Gemini error] " ++ "quota exceeded" :=
  ask_gemini_never_raises (gemRaises "quota exceeded") "headache" none "quota exceeded" rfl

/-- Claim C2, counterexample: a file named `report.pdf` uploaded with
declared content type `text/plain` is NOT answered with the fixed PDF
error — the text branch wins, the body is decoded and the model is
called — so the claim as stated (PDF error regardless of declared
content type) is false. -/
theorem analyze_file_pdf_counterexample :
    (analyze_file true ocrNever (gemSays "ok") "report.pdf" "text/plain" [104, 105]).1 ≠
      FileResponse.error "PDF parsing not enabled. Please convert PDF to text or image." := by
  intro hc
  have h : (analyze_file true ocrNever (gemSays "ok") "report.pdf" "text/plain" [104, 105]).1 =
      FileResponse.success (Json.arr []) (Json.str "ok") := rfl
  rw [h] at hc
  exact FileResponse.noConfusion hc

/-- Claim C2 (amended): for every upload whose filename ends in `.pdf`
(case-insensitively) and whose declared content type starts with neither
`"text/"` nor `"image/"`, the response is exactly the fixed PDF error and
the external model is never invoked (the trace is empty), regardless of
the file's byte content. -/
theorem analyze_file_pdf_rejected (ocr_available : Bool) (ocr : List Nat → OcrOutcome)
    (gem : String → GeminiCall) (filename content_type : String) (body : List Nat)
    (hpdf : is_pdf_upload filename = true)
    (ht : pyStartsWith content_type "text/" = false)
    (hi : pyStartsWith content_type "image/" = false) :
    analyze_file ocr_available ocr gem filename content_type body =
      (FileResponse.error "PDF parsing not enabled. Please convert PDF to text or image.", []) := by
  have hp : pyEndsWith (pyLower filename) ".pdf" = true := hpdf
  have h1 : pyEndsWith (pyLower filename) ".txt" = false :=
    ends_excl_same_len (pyLower filename) ".pdf" ".txt" rfl (by decide) hp
  have h2 : pyEndsWith (pyLower filename) ".png" = false :=
    ends_excl_same_len (pyLower filename) ".pdf" ".png" rfl (by decide) hp
  have h3 : pyEndsWith (pyLower filename) ".jpg" = false :=
    ends_excl_same_len (pyLower filename) ".pdf" ".jpg" rfl (by decide) hp
  have h4 : pyEndsWith (pyLower filename) ".jpeg" = false := ends_pdf_not_jpeg _ hp
  simp [analyze_file, is_text_upload, is_image_upload, is_pdf_upload, ht, hi, h1, h2, h3, h4, hp]

/-- Claim C2 (amended), witness: `report.pdf` with content type
`application/pdf` and a nonempty body is rejected with the PDF error and
an empty call trace. -/
theorem analyze_file_pdf_rejected_witness :
    analyze_file true ocrNever (gemSays "ok") "report.pdf" "application/pdf" [104] =
      (FileResponse.error "PDF parsing not enabled. Please convert PDF to text or image.", []) :=
  analyze_file_pdf_rejected true ocrNever (gemSays "ok") "report.pdf" "application/pdf" [104]
    rfl rfl rfl

/-- Claim C3: for every request reaching the model call (the extracted
text does not strip to empty), if the model's reply fails to parse as
JSON or parses to a value that is not an object (so the key lookup
raises), the route returns metrics equal to the empty array and diagnosis
equal to the reply text, with exactly one model invocation traced. -/
theorem analyze_file_parse_fallback (gem : String → GeminiCall) (extracted_text : String)
    (hne : pyStrip extracted_text ≠ "")
    (hfail : jsonObj? (json_loads
      (ask_gemini gem (analyze_file_prompt extracted_text) none).1) = none) :
    analyze_extracted gem extracted_text =
      (FileResponse.success (Json.arr [])
        (Json.str (ask_gemini gem (analyze_file_prompt extracted_text) none).1),
       [Event.gemini (full_prompt none (analyze_file_prompt extracted_text))]) := by
  simp only [analyze_extracted]
  rw [if_neg hne, hfail]
  rfl

/-- Claim C3, witness: a full `/analyze-file` request for a `.txt` upload
containing `"glucose 95"` whose mocked model replies
`"I cannot parse this."` returns `metrics = []` and
`diagnosis = "I cannot parse this."`. -/
theorem analyze_file_parse_fallback_witness :
    analyze_file true ocrNever (gemSays "I cannot parse this.") "report.txt" "text/plain"
        [103, 108, 117, 99, 111, 115, 101, 32, 57, 53] =
      (FileResponse.success (Json.arr []) (Json.str "I cannot parse this."),
       [Event.gemini (full_prompt none (analyze_file_prompt "glucose 95"))]) :=
  analyze_file_parse_fallback (gemSays "I cannot parse this.") "glucose 95" (by decide) rfl

/-- Claim C4: for every request reaching the model call whose reply parses
as a JSON object, the response's metrics field is the value of the reply's
`"metrics"` key (empty array when absent) and the diagnosis field is the
value of its `"diagnosis"` key (empty string when absent). -/
theorem analyze_file_parse_success (gem : String → GeminiCall) (extracted_text : String)
    (kvs : List (String × Json)) (hne : pyStrip extracted_text ≠ "")
    (hparse : json_loads (ask_gemini gem (analyze_file_prompt extracted_text) none).1 =
      some (Json.obj kvs)) :
    analyze_extracted gem extracted_text =
      (FileResponse.success (dictGet kvs "metrics" (Json.arr []))
          (dictGet kvs "diagnosis" (Json.str "")),
       [Event.gemini (full_prompt none (analyze_file_prompt extracted_text))]) := by
  simp only [analyze_extracted]
  rw [if_neg hne]
  simp only [jsonObj?, hparse]
  rfl

/-- Claim C4, witness: with the specification's example reply, the full
`/analyze-file` route returns exactly that metrics array and that
diagnosis string. -/
theorem analyze_file_parse_success_witness :
    analyze_file true ocrNever (gemSays goodReply) "report.txt" "text/plain"
        [103, 108, 117, 99, 111, 115, 101, 32, 57, 53] =
      (FileResponse.success
        (Json.arr [Json.obj [("name", Json.str "glucose"), ("value", Json.num "95"),
          ("unit", Json.str "mg/dL"), ("range", Json.str "70-100"),
          ("normal", Json.bool true)]])
        (Json.str "normal"),
       [Event.gemini (full_prompt none (analyze_file_prompt "glucose 95"))]) :=
  analyze_file_parse_success (gemSays goodReply) "glucose 95"
    [("metrics", Json.arr [Json.obj [("name", Json.str "glucose"), ("value", Json.num "95"),
      ("unit", Json.str "mg/dL"), ("range", Json.str "70-100"), ("normal", Json.bool true)]]),
     ("diagnosis", Json.str "normal")]
    (by decide) rfl

/-- Claim C5: `/analyze` with an empty or whitespace-only symptom returns
the fixed message and performs no external call; with any other symptom it
invokes the model exactly once, with a full prompt that contains the
trimmed symptom as a substring, and returns the model helper's answer. -/
theorem analyze_text_empty_guard (gem : String → GeminiCall) (symptom : String) :
    (pyStrip symptom = "" →
      analyze_text gem symptom = ("Please provide a non-empty symptom description.", [])) ∧
    (pyStrip symptom ≠ "" →
      analyze_text gem symptom =
        ((ask_gemini gem (analyze_text_prompt (pyStrip symptom)) none).1,
          [Event.gemini (full_prompt none (analyze_text_prompt (pyStrip symptom)))]) ∧
      ∃ a b, full_prompt none (analyze_text_prompt (pyStrip symptom)) =
        a ++ (pyStrip symptom ++ b)) := by
  constructor
  · intro h
    simp [analyze_text, h]
  · intro h
    refine ⟨by simp [analyze_text, h]; rfl, ?_⟩
    refine ⟨defaultSystem ++ "\n\nUser input:\n" ++ "User symptom description:\n\n",
      "\n\n" ++
      "Please provide:\n" ++
      "1) Short summary of likely causes (2–4 bullet points).\n" ++
      "2) Urgency level (e.g., " ++ sq ++ "seek immediate care" ++ sq ++ ", " ++
        sq ++ "see doctor within 48 hours" ++ sq ++ ", " ++ sq ++ "self-care ok" ++ sq ++ ").\n" ++
      "3) Practical next steps (3 bullets) and what specialist to consult if needed.\n" ++
      "4) List any red-flag symptoms that should prompt immediate emergency care.\n" ++
      "Be concise and avoid giving definitive medical diagnoses. Use plain language.", ?_⟩
    simp only [full_prompt, analyze_text_prompt, String.append_assoc]

/-- Claim C5, witness: a whitespace-only symptom returns the fixed message
with no external call, and the symptom `" headache "` leads to one model
call whose prompt contains the trimmed symptom. -/
theorem analyze_text_empty_guard_witness :
    analyze_text (gemSays "rest") " \t\n " =
      ("Please provide a non-empty symptom description.", []) ∧
    (analyze_text (gemSays "rest") " headache " =
      ((ask_gemini (gemSays "rest") (analyze_text_prompt (pyStrip " headache ")) none).1,
        [Event.gemini (full_prompt none (analyze_text_prompt (pyStrip " headache ")))]) ∧
      ∃ a b, full_prompt none (analyze_text_prompt (pyStrip " headache ")) =
        a ++ (pyStrip " headache " ++ b)) :=
  ⟨(analyze_text_empty_guard (gemSays "rest") " \t\n ").1 (by decide),
   (analyze_text_empty_guard (gemSays "rest") " headache ").2 (by decide)⟩

/-- Claim C6, counterexample: the reply `{"metrics": 5, "diagnosis": 7}`
(braces escaped) produces a successful, non-error response whose metrics
field is not an array of objects and whose diagnosis field is not a
string — the handler enforces no schema, so the claim as stated is
false. -/
theorem analyze_file_shape_counterexample :
    (analyze_file true ocrNever (gemSays "\x7b\"metrics\": 5, \"diagnosis\": 7\x7d")
        "report.txt" "text/plain" [104, 105]).1 =
      FileResponse.success (Json.num "5") (Json.num "7") ∧
    Json.isArrayOfObjects (Json.num "5") = false ∧
    Json.isString (Json.num "7") = false :=
  ⟨rfl, rfl, rfl⟩

/-- Claim C6 (amended): every successful (non-error) `/analyze-file`
response passes the reply through without schema enforcement — metrics is
the reply's `"metrics"` value (the empty array when the reply is not a
JSON object or lacks the key) and diagnosis is the reply's `"diagnosis"`
value (the raw reply string when the reply is not a JSON object, the
empty string when the key is absent); only on the fallback path are the
fields guaranteed to be an array and a string. -/
theorem analyze_file_success_passthrough (gem : String → GeminiCall) (extracted_text : String)
    (hne : pyStrip extracted_text ≠ "") :
    analyze_extracted gem extracted_text =
      (FileResponse.success
        (match jsonObj? (json_loads
            (ask_gemini gem (analyze_file_prompt extracted_text) none).1) with
         | some kvs => dictGet kvs "metrics" (Json.arr [])
         | none => Json.arr [])
        (match jsonObj? (json_loads
            (ask_gemini gem (analyze_file_prompt extracted_text) none).1) with
         | some kvs => dictGet kvs "diagnosis" (Json.str "")
         | none => Json.str (ask_gemini gem (analyze_file_prompt extracted_text) none).1),
       [Event.gemini (full_prompt none (analyze_file_prompt extracted_text))]) := by
  simp only [analyze_extracted]
  rw [if_neg hne]
  cases h : jsonObj? (json_loads (ask_gemini gem (analyze_file_prompt extracted_text) none).1) <;>
    simp [h] <;> rfl

/-- Claim C6 (amended), witness: a non-JSON reply takes the fallback path,
whose metrics field is an (empty) array and whose diagnosis field is the
reply string. -/
theorem analyze_file_success_passthrough_witness :
    analyze_extracted (gemSays "not json") "glucose 95" =
      (FileResponse.success (Json.arr []) (Json.str "not json"),
       [Event.gemini (full_prompt none (analyze_file_prompt "glucose 95"))]) :=
  analyze_file_success_passthrough (gemSays "not json") "glucose 95" (by decide)

/-- Claim C7: an upload classified as text whose decoded bytes strip to
empty, or one classified as image whose OCR output strips to empty, is
answered with the no-text-extracted error exactly as an extraction
failure would be, and the external model is never invoked (the trace
holds no model call). -/
theorem analyze_file_whitespace_extraction (ocr_available : Bool) (ocr : List Nat → OcrOutcome)
    (gem : String → GeminiCall) (filename content_type : String) (body : List Nat) :
    (is_text_upload content_type filename = true →
      pyStrip (utf8DecodeReplace body) = "" →
      analyze_file ocr_available ocr gem filename content_type body =
        (FileResponse.error "No text could be extracted from the file.", [])) ∧
    (∀ t, is_text_upload content_type filename = false →
      is_image_upload content_type filename = true →
      ocr body = OcrOutcome.extracts t → pyStrip t = "" →
      analyze_file true ocr gem filename content_type body =
        (FileResponse.error "No text could be extracted from the file.", [Event.ocrCall body])) := by
  constructor
  · intro h1 h2
    simp [analyze_file, h1, analyze_extracted, h2]
  · intro t h1 h2 h3 h4
    simp [analyze_file, h1, h2, image_branch, h3, analyze_extracted, h4]

/-- Claim C7, witness: a `.txt` upload whose body is only whitespace
bytes yields the no-text-extracted error and no external call. -/
theorem analyze_file_whitespace_extraction_witness :
    analyze_file true ocrNever (gemSays "ok") "notes.txt" "text/plain" [32, 9, 10] =
      (FileResponse.error "No text could be extracted from the file.", []) :=
  (analyze_file_whitespace_extraction true ocrNever (gemSays "ok") "notes.txt" "text/plain"
    [32, 9, 10]).1 rfl (by decide)

/-- Claim C8: when the one-time OCR capability probe marked OCR as
unavailable, every upload classified as an image (the text check failed
and the image check matched) is answered with the OCR-unavailable error,
with an empty trace: neither an OCR attempt nor a model call happens. -/
theorem analyze_file_ocr_unavailable (ocr : List Nat → OcrOutcome)
    (gem : String → GeminiCall) (filename content_type : String) (body : List Nat)
    (ht : is_text_upload content_type filename = false)
    (hi : is_image_upload content_type filename = true) :
    analyze_file false ocr gem filename content_type body =
      (FileResponse.error "OCR is not available. Install Pillow and pytesseract.", []) := by
  simp [analyze_file, ht, hi, image_branch]

/-- Claim C8, witness: with OCR unavailable, a `.png` upload of content
type `image/png` gets the OCR-unavailable error and an empty trace. -/
theorem analyze_file_ocr_unavailable_witness :
    analyze_file false ocrNever (gemSays "ok") "scan.png" "image/png" [1, 2, 3] =
      (FileResponse.error "OCR is not available. Install Pillow and pytesseract.", []) :=
  analyze_file_ocr_unavailable ocrNever (gemSays "ok") "scan.png" "image/png" [1, 2, 3] rfl rfl

/-- Claim C9: the decode step for text-classified uploads is total — for
every byte sequence the handler proceeds to the empty-text check with the
decoded string (the text branch always reduces to `analyze_extracted` of
the replacing decoder's output) — and an undecodable byte (an invalid
lead: a stray continuation byte, an overlong lead 0xC0/0xC1, or a byte
above 0xF4) is replaced by U+FFFD rather than causing a failure. -/
theorem analyze_file_text_decode_total (ocr_available : Bool) (ocr : List Nat → OcrOutcome)
    (gem : String → GeminiCall) (filename content_type : String) (body : List Nat) :
    (is_text_upload content_type filename = true →
      analyze_file ocr_available ocr gem filename content_type body =
        analyze_extracted gem (utf8DecodeReplace body)) ∧
    (∀ b bs, ((0x80 ≤ b ∧ b ≤ 0xC1) ∨ 0xF5 ≤ b) →
      utf8DecodeList (b :: bs) = replChar :: utf8DecodeList bs) := by
  constructor
  · intro h
    simp [analyze_file, h]
  · intro b bs h
    simp only [utf8DecodeList, List.length_cons, utf8go]
    rcases h with ⟨h1, h2⟩ | h1
    · rw [if_neg (by omega), if_pos (by omega)]
    · rw [if_neg (by omega), if_neg (by omega), if_neg (by omega), if_neg (by omega),
        if_neg (by omega)]

/-- Claim C9, witness: a text-typed upload whose body holds the invalid
byte 0xFF still reaches the extraction pipeline, and a stray continuation
byte 0x80 decodes to the replacement character. -/
theorem analyze_file_text_decode_total_witness :
    analyze_file true ocrNever (gemSays "ok") "data.bin" "text/plain" [255, 104] =
      analyze_extracted (gemSays "ok") (utf8DecodeReplace [255, 104]) ∧
    utf8DecodeList [128, 104] = replChar :: utf8DecodeList [104] :=
  ⟨(analyze_file_text_decode_total true ocrNever (gemSays "ok") "data.bin" "text/plain"
      [255, 104]).1 rfl,
   (analyze_file_text_decode_total true ocrNever (gemSays "ok") "data.bin" "text/plain"
      [255, 104]).2 128 [104] (Or.inl (by omega))⟩

/-- Claim C10: classification is ordered — the text check first, then the
image check, then the `.pdf` check, then the unsupported-type rejection —
each request taking exactly one branch (the four guard combinations are
exhaustive and mutually exclusive); consequently an upload whose declared
content type starts with `"text/"` is processed as text whatever its
filename (in particular one ending in `.pdf`, `.png`, `.jpg` or
`.jpeg`). -/
theorem analyze_file_branch_order (ocr_available : Bool) (ocr : List Nat → OcrOutcome)
    (gem : String → GeminiCall) (filename content_type : String) (body : List Nat) :
    (is_text_upload content_type filename = true →
      analyze_file ocr_available ocr gem filename content_type body =
        analyze_extracted gem (utf8DecodeReplace body)) ∧
    (is_text_upload content_type filename = false →
      is_image_upload content_type filename = true →
      analyze_file ocr_available ocr gem filename content_type body =
        image_branch ocr_available ocr gem body) ∧
    (is_text_upload content_type filename = false →
      is_image_upload content_type filename = false →
      is_pdf_upload filename = true →
      analyze_file ocr_available ocr gem filename content_type body =
        (FileResponse.error "PDF parsing not enabled. Please convert PDF to text or image.", [])) ∧
    (is_text_upload content_type filename = false →
      is_image_upload content_type filename = false →
      is_pdf_upload filename = false →
      analyze_file ocr_available ocr gem filename content_type body =
        (FileResponse.error "Unsupported file type. Send text or image files.", [])) ∧
    (pyStartsWith content_type "text/" = true →
      analyze_file ocr_available ocr gem filename content_type body =
        analyze_extracted gem (utf8DecodeReplace body)) := by
  refine ⟨fun h1 => by simp [analyze_file, h1],
    fun h1 h2 => by simp [analyze_file, h1, h2],
    fun h1 h2 h3 => by simp [analyze_file, h1, h2, h3],
    fun h1 h2 h3 => by simp [analyze_file, h1, h2, h3],
    fun h1 => by simp [analyze_file, is_text_upload, h1]⟩

/-- Claim C10, witness: a file named `scan.pdf` with declared content
type `text/plain` is processed by the text branch, not the PDF
rejection. -/
theorem analyze_file_branch_order_witness :
    analyze_file true ocrNever (gemSays "ok") "scan.pdf" "text/plain" [104, 105] =
      analyze_extracted (gemSays "ok") (utf8DecodeReplace [104, 105]) :=
  (analyze_file_branch_order true ocrNever (gemSays "ok") "scan.pdf" "text/plain"
    [104, 105]).2.2.2.2 rfl

end HealthTrack
